import Mathlib

/-!
Verification development for the cate-desktop client.

Part 1 models the wire-boundary translators of
`src/renderer/webapi/apis/WorkspaceAPI.ts` (`responseToWorkspace`) and
`src/renderer/webapi/apis/BackendConfigAPI.ts` (`fromPythonConfig`,
`toPythonConfig`).  JavaScript values are embedded as the inductive
`JSVal`; an object is a list of key/value pairs (its literal key order),
property access returns `undef` for an absent key, and JavaScript
truthiness is the predicate `truthy`.
-/

namespace Cate

/-- A JavaScript value: undefined, null, booleans, strings, numbers
(embedded as integers; no claim here depends on fractional numerics),
and objects as ordered key/value lists. -/
inductive JSVal where
  | undefv : JSVal
  | nullv : JSVal
  | bool (b : Bool) : JSVal
  | str (s : String) : JSVal
  | num (n : Int) : JSVal
  | obj (fields : List (String × JSVal)) : JSVal

/-- JavaScript truthiness of a value (`!v` in the source negates this). -/
def truthy : JSVal → Bool
  | .undefv => false
  | .nullv => false
  | .bool b => b
  | .str s => !s.isEmpty
  | .num n => n != 0
  | .obj _ => true

/-- First binding of a key in an object's field list, `undef` if absent. -/
def getF : List (String × JSVal) → String → JSVal
  | [], _ => .undefv
  | (k', v) :: rest, k => if k' = k then v else getF rest k

/-- JavaScript property access `v.k`: field lookup on objects, `undef`
otherwise (the translators only access fields after a truthiness guard). -/
def jget : JSVal → String → JSVal
  | .obj fields, k => getF fields k
  | _, _ => .undefv

/-- The keys an object literally carries (`Object.keys`); `[]` for
non-objects. -/
def objKeys : JSVal → List String
  | .obj fields => fields.map Prod.fst
  | _ => []

/-- Whether a key is literally present on the value. -/
def hasKey (v : JSVal) (k : String) : Bool :=
  decide (k ∈ objKeys v)

/-- A value carries at most the listed keys: property access on any key
outside the list yields `undefined`. -/
def onlyKeys (v : JSVal) (ks : List String) : Prop :=
  ∀ k, k ∉ ks → jget v k = .undefv

/-- The camelCase keys of a translated workspace object. -/
def workspaceClientKeys : List String :=
  ["baseDir", "description", "isScratch", "isModified", "isSaved",
   "workflow", "resources"]

/-- Extensional equality of JavaScript objects as observed through
property access and key presence: the notion of structural equality the
spec's round-trip statements refer to (reference equality never holds
between distinct literals). -/
def objExtEq (a b : JSVal) : Prop :=
  (∀ k, jget a k = jget b k) ∧ (∀ k, hasKey a k = hasKey b k)

/-- `responseToWorkspace` from WorkspaceAPI.ts: a falsy response maps to
null, otherwise to an object literal with exactly the seven client keys,
each read off the corresponding snake_case wire field. -/
def responseToWorkspace (workspaceResponse : JSVal) : JSVal :=
  if !truthy workspaceResponse then .nullv
  else .obj [
    ("baseDir", jget workspaceResponse "base_dir"),
    ("description", jget workspaceResponse "description"),
    ("isScratch", jget workspaceResponse "is_scratch"),
    ("isModified", jget workspaceResponse "is_modified"),
    ("isSaved", jget workspaceResponse "is_saved"),
    ("workflow", jget workspaceResponse "workflow"),
    ("resources", jget workspaceResponse "resources")]

/-- `fromPythonConfig` from BackendConfigAPI.ts: falsy responses map to
null, otherwise to the two-key camelCase client object. -/
def fromPythonConfig (configResponse : JSVal) : JSVal :=
  if !truthy configResponse then .nullv
  else .obj [
    ("dataStoresPath", jget configResponse "data_stores_path"),
    ("useWorkspaceImageryCache", jget configResponse "use_workspace_imagery_cache")]

/-- `toPythonConfig` from BackendConfigAPI.ts: falsy configs map to the
empty object, otherwise to the two-key snake_case wire object. -/
def toPythonConfig (backendConfig : JSVal) : JSVal :=
  if !truthy backendConfig then .obj []
  else .obj [
    ("data_stores_path", jget backendConfig "dataStoresPath"),
    ("use_workspace_imagery_cache", jget backendConfig "useWorkspaceImageryCache")]

/-!
Part 2 models the task list entry `TaskComponent` (TasksPanel source,
`src/unnamed/part_001`): its predicates `isRunning` and
`isMakingProgress` and the activity area produced by `render`.
`JobStatusEnum` and the task/progress records are declared outside the
sources present here; their shape is taken from their use in
`TaskComponent` and from the spec (a progress record carries a `worked`
counter, a `total`, and an optional message).
-/

/-- Job status enumeration (`JobStatusEnum` of webapi/Job). -/
inductive JobStatusEnum where
  | NEW | SUBMITTED | IN_PROGRESS | SUCCEEDED | FAILED | CANCELLED
deriving DecidableEq

/-- One progress record of a task: work units done, total units, and an
optional message. -/
structure TaskProgress where
  worked : Int
  total : Int
  message : Option String
deriving DecidableEq

/-- One failure record of a task. -/
structure TaskFailure where
  message : Option String
deriving DecidableEq

/-- The task state rendered by `TaskComponent`: a status, the latest
progress record if any, and a failure record if any. -/
structure TaskState where
  status : JobStatusEnum
  progress : Option TaskProgress
  failure : Option TaskFailure
deriving DecidableEq

namespace TaskComponent

/-- `TaskComponent.isRunning`: status is NEW, SUBMITTED or IN_PROGRESS. -/
def isRunning (tastState : TaskState) : Bool :=
  tastState.status = JobStatusEnum.NEW ||
    tastState.status = JobStatusEnum.SUBMITTED ||
    tastState.status = JobStatusEnum.IN_PROGRESS

/-- `TaskComponent.isMakingProgress`: status is IN_PROGRESS, a progress
record exists (truthy), its `worked` is truthy (a nonzero number), and
its `total` is positive. -/
def isMakingProgress (tastState : TaskState) : Bool :=
  tastState.status = JobStatusEnum.IN_PROGRESS &&
    (match tastState.progress with
     | some pr => (pr.worked != 0) && (pr.total > 0)
     | none => false)

/-- The activity area `TaskComponent.render` puts next to a task:
nothing, an indeterminate progress bar, or a percentage progress bar
with a Cancel button. -/
inductive Activity where
  | noActivity : Activity
  | unbounded : Activity
  | percentWithCancel (value : ℚ) : Activity
deriving DecidableEq

/-- The activity part of `TaskComponent.render`: for a running task a
percentage bar valued `worked/total` together with the Cancel button
when `isMakingProgress` holds, an indeterminate bar otherwise; nothing
for a non-running task.  (The `none` fallback inside the making-progress
branch is unreachable: `isMakingProgress` requires a progress record.) -/
def renderActivity (taskState : TaskState) : Activity :=
  if isRunning taskState then
    if isMakingProgress taskState then
      match taskState.progress with
      | some pr => .percentWithCancel ((pr.worked : ℚ) / (pr.total : ℚ))
      | none => .unbounded
    else .unbounded
  else .noActivity

/-- Whether the rendered task row offers the Cancel control. -/
def offersCancel (taskState : TaskState) : Bool :=
  match renderActivity taskState with
  | .percentWithCancel _ => true
  | _ => false

/-- The rendering rule claimed for a running task, written from the
claim's words: a percentage bar valued `worked/total` exactly when the
status is IN_PROGRESS and a progress record exists with nonzero `worked`
and positive `total`; an unbounded indicator in every other running
case. -/
def claimedRunningActivity (taskState : TaskState) : Activity :=
  match taskState.progress with
  | some pr =>
    if taskState.status = JobStatusEnum.IN_PROGRESS ∧
        pr.worked ≠ 0 ∧ pr.total > 0
    then .percentWithCancel ((pr.worked : ℚ) / (pr.total : ℚ))
    else .unbounded
  | none => .unbounded

/-- The cancellability condition claimed for a task, written from the
claim's words: status IN_PROGRESS with a progress record whose `worked`
counter is nonzero and whose `total` is positive. -/
def claimedCancelCondition (taskState : TaskState) : Bool :=
  decide (taskState.status = JobStatusEnum.IN_PROGRESS) &&
  (match taskState.progress with
   | some pr => (pr.worked != 0) && decide (pr.total > 0)
   | none => false)

end TaskComponent

/-!
Part 3 models the external-object lifecycle bridge, class
`ExternalObjectComponent` of components/ExternalObjectComponent (second
document of `src/src/renderer/components/WorkspacePanel.tsx`).

The embedding fixes one component instance with identifier `cid` and one
parent DOM element (the `div` produced by `render`, whose `id` attribute
is set to the component's `id` property, so the `parentContainer.id`
lookup in `unmountExternalObject` resolves to `cid`).  External objects
and container elements are numbered from a fresh counter, so that a new
construction is observably distinct.  Calls to the abstract client hooks
`newExternalObject`, `externalObjectMounted`, `externalObjectUnmounted`
and `updateExternalObject` are recorded in an event log.  `assert.ok` on
a missing store entry is an `Except.error`.
-/

/-- A store entry (`ExternalObjectRef`): the external object, the last
state applied by `updateExternalComponentAndSaveProps` (`none` while the
`state` field is still unset), and the container element. -/
structure XRef (ES : Type) where
  object : Nat
  state : Option ES
  container : Nat
deriving DecidableEq

/-- The external object store (`ExternalObjectStore`): identifier to
reference, as an association list with at most one binding per key. -/
def XStore (ES : Type) := List (String × XRef ES)

instance (ES : Type) [DecidableEq ES] : DecidableEq (XStore ES) := by
  unfold XStore
  infer_instance

/-- Store lookup `store[id]`, `none` when the identifier is unbound. -/
def storeGet {ES : Type} : XStore ES → String → Option (XRef ES)
  | [], _ => none
  | (k, r) :: rest, i => if k = i then some r else storeGet rest i

/-- Store assignment `store[id] = ref`: overwrites the binding in place
or appends a new one. -/
def storeSet {ES : Type} : XStore ES → String → XRef ES → XStore ES
  | [], i, r => [(i, r)]
  | (k, v) :: rest, i, r =>
    if k = i then (i, r) :: rest else (k, v) :: storeSet rest i r

/-- Store deletion `delete store[id]`. -/
def storeDel {ES : Type} (st : XStore ES) (i : String) : XStore ES :=
  st.filter (fun kv => kv.1 ≠ i)

/-- Whether the store holds an entry for the identifier (`id in store`). -/
def hasId {ES : Type} (st : XStore ES) (i : String) : Bool :=
  (storeGet st i).isSome

/-- One logged call to a client hook of the component: external-object
construction, the mounted/unmounted notifications, and the state-diff
update call with its previous and next state arguments. -/
inductive XEvent (ES : Type) where
  | newObj (id : String) (object : Nat) : XEvent ES
  | mounted (object : Nat) : XEvent ES
  | unmounted (object : Nat) : XEvent ES
  | update (object : Nat) (prev : Option ES) (next : ES) : XEvent ES
deriving DecidableEq

/-- The observable state of one component instance and its store: the
(effective) external object store, the child containers of the parent
DOM element, whether `this.parentContainer` is set, the fresh-name
counter, and the chronological event log. -/
structure XState (ES : Type) where
  store : XStore ES
  children : List Nat
  attached : Bool
  fresh : Nat
  events : List (XEvent ES)
deriving DecidableEq

/-- The empty initial state: empty store, detached component, no events. -/
def xInit (ES : Type) : XState ES := ⟨[], [], false, 0, []⟩

/-- `updateExternalComponentAndSaveProps(nextProps)`: looks up the store
entry for the component id (`assert.ok` fails — `Except.error` — when
absent), calls `updateExternalObject` with the entry's recorded state as
previous state and `propsToExternalObjectState(nextProps)` (a shallow
copy of the props, here `nextState` itself) as next state, then saves
the next state into the entry. -/
def updateExternalComponentAndSaveProps {ES : Type} (cid : String)
    (nextState : ES) (s : XState ES) : Except Unit (XState ES) :=
  match storeGet s.store cid with
  | none => .error ()
  | some ref => .ok { s with
      store := storeSet s.store cid { ref with state := some nextState },
      events := s.events ++ [.update ref.object ref.state nextState] }

/-- `mountNewExternalObject(parentContainer)`: creates a container via
`newContainer` and appends it to the parent element, constructs the
external object via `newExternalObject`, registers `{object, container}`
(no `state` field) in the store, records the parent, notifies
`externalObjectMounted`, then performs the initial update with the
current props. -/
def mountNewExternalObject {ES : Type} (cid : String) (props : ES)
    (s : XState ES) : Except Unit (XState ES) :=
  let c := s.fresh
  let o := s.fresh
  updateExternalComponentAndSaveProps cid props
    { s with
      children := s.children ++ [c],
      store := storeSet s.store cid ⟨o, none, c⟩,
      attached := true,
      fresh := s.fresh + 1,
      events := s.events ++ [.newObj cid o, .mounted o] }

/-- `mountExistingExternalObject(parentContainer)`: looks up the entry
(`assert.ok`), re-appends its container to the parent element unless it
is already a child, records the parent, notifies
`externalObjectMounted`, then updates with the current props. -/
def mountExistingExternalObject {ES : Type} (cid : String) (props : ES)
    (s : XState ES) : Except Unit (XState ES) :=
  match storeGet s.store cid with
  | none => .error ()
  | some ref =>
    updateExternalComponentAndSaveProps cid props
      { s with
        children :=
          if s.children.contains ref.container then s.children
          else s.children ++ [ref.container],
        attached := true,
        events := s.events ++ [.mounted ref.object] }

/-- `unmountExternalObject(parentContainer)`: looks up the entry for
`parentContainer.id` — which `render` ties to the component id
(`assert.ok` fails when absent) — removes the container from the parent
element if it is currently a child, clears `this.parentContainer`, and
notifies `externalObjectUnmounted`.  The store itself is untouched. -/
def unmountExternalObject {ES : Type} (cid : String) (s : XState ES) :
    Except Unit (XState ES) :=
  match storeGet s.store cid with
  | none => .error ()
  | some ref => .ok { s with
      children :=
        if s.children.contains ref.container then s.children.erase ref.container
        else s.children,
      attached := false,
      events := s.events ++ [.unmounted ref.object] }

/-- `remountExternalObject(parentContainer)`: with a parent element at
hand, mounts the existing entry or a brand-new one; with none, unmounts
from the remembered parent if the component is attached. -/
def remountExternalObject {ES : Type} (cid : String) (props : ES)
    (parentPresent : Bool) (s : XState ES) : Except Unit (XState ES) :=
  if parentPresent then
    if hasId s.store cid then mountExistingExternalObject cid props s
    else mountNewExternalObject cid props s
  else if s.attached then unmountExternalObject cid s
  else .ok s

/-- `componentWillUpdate(nextProps)`: `checkProps` rejects an empty id;
with a store entry present the update is applied and saved, otherwise
the component remounts if attached, and otherwise the update is
skipped. -/
def componentWillUpdate {ES : Type} (cid : String) (nextProps : ES)
    (s : XState ES) : Except Unit (XState ES) :=
  if cid = "" then .error ()
  else if hasId s.store cid then
    updateExternalComponentAndSaveProps cid nextProps s
  else if s.attached then remountExternalObject cid nextProps true s
  else .ok s

/-- `forceRegeneration()`: with an entry present, deletes it from the
store, removes its container from the remembered parent when attached,
and remounts through `remountExternalObject(this.parentContainer)`;
without an entry, does nothing. -/
def forceRegeneration {ES : Type} (cid : String) (props : ES)
    (s : XState ES) : Except Unit (XState ES) :=
  match storeGet s.store cid with
  | none => .ok s
  | some ref =>
    remountExternalObject cid props s.attached
      { s with
        store := storeDel s.store cid,
        children :=
          if s.attached then s.children.erase ref.container else s.children }

/-- The externally triggered operations on one component instance:
React mounting the rendered div (ref callback with the element), a
property change, React unmounting the div (ref callback with null), and
a client-requested regeneration. -/
inductive XOp (ES : Type) where
  | mount (props : ES) : XOp ES
  | update (props : ES) : XOp ES
  | unmount : XOp ES
  | regen (props : ES) : XOp ES

/-- One step of the component lifecycle: the ref callback with an
element runs `remountExternalObject(parentContainer)`, a property change
runs `componentWillUpdate`, the ref callback with null runs the unmount
branch of `remountExternalObject(null)`, and `regen` runs
`forceRegeneration`. -/
def xStep {ES : Type} (cid : String) (s : XState ES) :
    XOp ES → Except Unit (XState ES)
  | .mount props => remountExternalObject cid props true s
  | .update props => componentWillUpdate cid props s
  | .unmount => if s.attached then unmountExternalObject cid s else .ok s
  | .regen props => forceRegeneration cid props s

/-- Runs a sequence of lifecycle operations, propagating assertion
failures. -/
def runOps {ES : Type} (cid : String) : List (XOp ES) → XState ES →
    Except Unit (XState ES)
  | [], s => .ok s
  | op :: rest, s => (xStep cid s op).bind (runOps cid rest)

/-- The last element of a list, or the default for the empty list. -/
def lastD {ES : Type} (d : ES) : List ES → ES
  | [] => d
  | p :: ps => lastD p ps

/-- The update events produced by applying a list of property states in
order, starting from a last-saved state `st`: each call's previous state
is the preceding call's next state. -/
def updChain {ES : Type} (o : Nat) (st : ES) : List ES → List (XEvent ES)
  | [] => []
  | p :: ps => .update o (some st) p :: updChain o p ps

/-- Checks that along an event log every `update` call's previous-state
argument equals the last state saved by the preceding `update` call
(`cur`), starting from `cur = none` for a fresh entry. -/
def chainOK {ES : Type} [DecidableEq ES] :
    Option ES → List (XEvent ES) → Bool
  | _, [] => true
  | cur, .update _ p n :: rest =>
    if p = cur then chainOK (some n) rest else false
  | cur, _ :: rest => chainOK cur rest

/-- `this.props.externalObjectStore || DEFAULT_EXTERNAL_OBJECT_CACHE`,
the getter behind every store access of the component: the injected
store when the `externalObjectStore` property is set (objects are
truthy), else the class-static default cache. -/
def externalObjectStoreOf {ES : Type} (injected : Option (XStore ES))
    (defaultCache : XStore ES) : XStore ES :=
  match injected with
  | some s => s
  | none => defaultCache

/-- Whether an event is a `newExternalObject` construction call. -/
def isNewObjEv {ES : Type} : XEvent ES → Bool
  | .newObj _ _ => true
  | _ => false

/-- Whether an event is an `updateExternalObject` call. -/
def isUpdateEv {ES : Type} : XEvent ES → Bool
  | .update _ _ _ => true
  | _ => false

/-- Whether a lifecycle operation completed normally (no assertion
failure). -/
def isOkE {α : Type} : Except Unit α → Bool
  | .ok _ => true
  | .error _ => false

/-- Index of the first element satisfying the predicate (length of the
list when none does). -/
def firstIdx {α : Type} (p : α → Bool) : List α → Nat
  | [] => 0
  | a :: l => if p a then 0 else firstIdx p l + 1

/-!
Theorems.  Each claim of the specification is settled by one theorem
(with a witness when the theorem carries hypotheses); shared helper
lemmas precede them.
-/

/-- C9: a missing backend payload — null or undefined — makes both
response translators return null: `responseToWorkspace` and
`fromPythonConfig` map null and undefined to null, so the job promise
resolves with null rather than a partially populated object. -/
theorem claim9_null_payload_maps_to_null :
    responseToWorkspace JSVal.nullv = JSVal.nullv
    ∧ responseToWorkspace JSVal.undefv = JSVal.nullv
    ∧ fromPythonConfig JSVal.nullv = JSVal.nullv
    ∧ fromPythonConfig JSVal.undefv = JSVal.nullv :=
  ⟨rfl, rfl, rfl, rfl⟩

/-- C3 counterexample: the raw response `{base_dir: "/x", is_scratch:
true}` does not translate to an object carrying only the keys `baseDir`
and `isScratch`: the translated object also carries `description` (with
an undefined value), and its key list is the full seven-key list. -/
theorem claim3_counterexample :
    hasKey (responseToWorkspace (JSVal.obj
      [("base_dir", JSVal.str "/x"), ("is_scratch", JSVal.bool true)]))
      "description" = true
    ∧ objKeys (responseToWorkspace (JSVal.obj
        [("base_dir", JSVal.str "/x"), ("is_scratch", JSVal.bool true)]))
      ≠ ["baseDir", "isScratch"] := by
  constructor
  · rfl
  · decide

/-- C3 (amended): for every truthy workspace response, the translation
returns an object whose key list is exactly the seven client keys, each
mapped field read off its snake_case wire field, every unmapped response
field dropped; the example response `{base_dir: "/x", is_scratch: true}`
maps to an object with `baseDir = "/x"`, `isScratch = true`, and the
remaining five keys present with undefined values. -/
theorem claim3_response_translation (r : JSVal) (h : truthy r = true) :
    objKeys (responseToWorkspace r) = workspaceClientKeys
    ∧ jget (responseToWorkspace r) "baseDir" = jget r "base_dir"
    ∧ jget (responseToWorkspace r) "description" = jget r "description"
    ∧ jget (responseToWorkspace r) "isScratch" = jget r "is_scratch"
    ∧ jget (responseToWorkspace r) "isModified" = jget r "is_modified"
    ∧ jget (responseToWorkspace r) "isSaved" = jget r "is_saved"
    ∧ jget (responseToWorkspace r) "workflow" = jget r "workflow"
    ∧ jget (responseToWorkspace r) "resources" = jget r "resources"
    ∧ onlyKeys (responseToWorkspace r) workspaceClientKeys
    ∧ responseToWorkspace (JSVal.obj
        [("base_dir", JSVal.str "/x"), ("is_scratch", JSVal.bool true)])
      = JSVal.obj [
          ("baseDir", JSVal.str "/x"), ("description", JSVal.undefv),
          ("isScratch", JSVal.bool true), ("isModified", JSVal.undefv),
          ("isSaved", JSVal.undefv), ("workflow", JSVal.undefv),
          ("resources", JSVal.undefv)] := by
  rw [responseToWorkspace, h]
  refine ⟨rfl, ?_, ?_, ?_, ?_, ?_, ?_, ?_, ?_, rfl⟩
  · rfl
  · rfl
  · rfl
  · rfl
  · rfl
  · rfl
  · rfl
  · intro k hk
    simp only [workspaceClientKeys, List.mem_cons, List.not_mem_nil,
      or_false, not_or] at hk
    obtain ⟨h1, h2, h3, h4, h5, h6, h7⟩ := hk
    simp [jget, getF, Ne.symm h1, Ne.symm h2, Ne.symm h3, Ne.symm h4,
      Ne.symm h5, Ne.symm h6, Ne.symm h7]

/-- C3 witness: the amended translation facts at the concrete truthy
response `{base_dir: "/x", is_scratch: true}`. -/
theorem claim3_response_translation_witness :
    truthy (JSVal.obj
      [("base_dir", JSVal.str "/x"), ("is_scratch", JSVal.bool true)]) = true
    ∧ (objKeys (responseToWorkspace (JSVal.obj
        [("base_dir", JSVal.str "/x"), ("is_scratch", JSVal.bool true)]))
        = workspaceClientKeys
      ∧ jget (responseToWorkspace (JSVal.obj
          [("base_dir", JSVal.str "/x"), ("is_scratch", JSVal.bool true)]))
          "baseDir"
        = jget (JSVal.obj
            [("base_dir", JSVal.str "/x"), ("is_scratch", JSVal.bool true)])
            "base_dir"
      ∧ jget (responseToWorkspace (JSVal.obj
          [("base_dir", JSVal.str "/x"), ("is_scratch", JSVal.bool true)]))
          "description"
        = jget (JSVal.obj
            [("base_dir", JSVal.str "/x"), ("is_scratch", JSVal.bool true)])
            "description"
      ∧ jget (responseToWorkspace (JSVal.obj
          [("base_dir", JSVal.str "/x"), ("is_scratch", JSVal.bool true)]))
          "isScratch"
        = jget (JSVal.obj
            [("base_dir", JSVal.str "/x"), ("is_scratch", JSVal.bool true)])
            "is_scratch"
      ∧ jget (responseToWorkspace (JSVal.obj
          [("base_dir", JSVal.str "/x"), ("is_scratch", JSVal.bool true)]))
          "isModified"
        = jget (JSVal.obj
            [("base_dir", JSVal.str "/x"), ("is_scratch", JSVal.bool true)])
            "is_modified"
      ∧ jget (responseToWorkspace (JSVal.obj
          [("base_dir", JSVal.str "/x"), ("is_scratch", JSVal.bool true)]))
          "isSaved"
        = jget (JSVal.obj
            [("base_dir", JSVal.str "/x"), ("is_scratch", JSVal.bool true)])
            "is_saved"
      ∧ jget (responseToWorkspace (JSVal.obj
          [("base_dir", JSVal.str "/x"), ("is_scratch", JSVal.bool true)]))
          "workflow"
        = jget (JSVal.obj
            [("base_dir", JSVal.str "/x"), ("is_scratch", JSVal.bool true)])
            "workflow"
      ∧ jget (responseToWorkspace (JSVal.obj
          [("base_dir", JSVal.str "/x"), ("is_scratch", JSVal.bool true)]))
          "resources"
        = jget (JSVal.obj
            [("base_dir", JSVal.str "/x"), ("is_scratch", JSVal.bool true)])
            "resources"
      ∧ onlyKeys (responseToWorkspace (JSVal.obj
          [("base_dir", JSVal.str "/x"), ("is_scratch", JSVal.bool true)]))
          workspaceClientKeys
      ∧ responseToWorkspace (JSVal.obj
          [("base_dir", JSVal.str "/x"), ("is_scratch", JSVal.bool true)])
        = JSVal.obj [
            ("baseDir", JSVal.str "/x"), ("description", JSVal.undefv),
            ("isScratch", JSVal.bool true), ("isModified", JSVal.undefv),
            ("isSaved", JSVal.undefv), ("workflow", JSVal.undefv),
            ("resources", JSVal.undefv)]) :=
  ⟨rfl, claim3_response_translation
    (JSVal.obj [("base_dir", JSVal.str "/x"), ("is_scratch", JSVal.bool true)])
    rfl⟩

/-- Extensional object equality between two-key objects carrying the
same bindings in either order. -/
theorem objExtEq_pair_swap (k1 k2 : String) (v1 v2 : JSVal)
    (hk : k1 ≠ k2) :
    objExtEq (JSVal.obj [(k1, v1), (k2, v2)])
      (JSVal.obj [(k2, v2), (k1, v1)]) := by
  constructor
  · intro k
    simp only [jget, getF]
    by_cases h1 : k1 = k
    · rw [if_pos h1, if_neg (fun h2 => hk (h1.trans h2.symm)), if_pos h1]
    · rw [if_neg h1]
      by_cases h2 : k2 = k
      · rw [if_pos h2, if_pos h2]
      · rw [if_neg h2, if_neg h2, if_neg h1]
  · intro k
    simp only [hasKey, objKeys, List.map, decide_eq_decide, List.mem_cons,
      List.not_mem_nil, or_false]
    constructor
    · rintro (h | h) <;> simp [h]
    · rintro (h | h) <;> simp [h]

/-- C8: the backend-config field translation round-trips both ways: a
client config object with exactly the fields `dataStoresPath` and
`useWorkspaceImageryCache` survives `toPythonConfig` then
`fromPythonConfig` unchanged (up to JavaScript structural equality), and
a wire object with exactly the fields `data_stores_path` and
`use_workspace_imagery_cache` survives `fromPythonConfig` then
`toPythonConfig` unchanged. -/
theorem claim8_config_round_trip (v1 v2 w1 w2 : JSVal)
    (fc fr : List (String × JSVal))
    (hC : fc = [("dataStoresPath", v1), ("useWorkspaceImageryCache", v2)]
       ∨ fc = [("useWorkspaceImageryCache", v2), ("dataStoresPath", v1)])
    (hR : fr = [("data_stores_path", w1), ("use_workspace_imagery_cache", w2)]
       ∨ fr = [("use_workspace_imagery_cache", w2), ("data_stores_path", w1)]) :
    objExtEq (fromPythonConfig (toPythonConfig (JSVal.obj fc))) (JSVal.obj fc)
    ∧ objExtEq (toPythonConfig (fromPythonConfig (JSVal.obj fr))) (JSVal.obj fr) := by
  constructor
  · rcases hC with h | h <;> subst h
    · exact ⟨fun k => rfl, fun k => rfl⟩
    · exact objExtEq_pair_swap "dataStoresPath" "useWorkspaceImageryCache"
        v1 v2 (by decide)
  · rcases hR with h | h <;> subst h
    · exact ⟨fun k => rfl, fun k => rfl⟩
    · exact objExtEq_pair_swap "data_stores_path" "use_workspace_imagery_cache"
        w1 w2 (by decide)

/-- C8 witness: the round trip at the concrete client config
`{dataStoresPath: "/d", useWorkspaceImageryCache: true}` and the
concrete wire object `{data_stores_path: "/p",
use_workspace_imagery_cache: false}`. -/
theorem claim8_config_round_trip_witness :
    objExtEq (fromPythonConfig (toPythonConfig (JSVal.obj
        [("dataStoresPath", JSVal.str "/d"),
         ("useWorkspaceImageryCache", JSVal.bool true)])))
      (JSVal.obj
        [("dataStoresPath", JSVal.str "/d"),
         ("useWorkspaceImageryCache", JSVal.bool true)])
    ∧ objExtEq (toPythonConfig (fromPythonConfig (JSVal.obj
        [("data_stores_path", JSVal.str "/p"),
         ("use_workspace_imagery_cache", JSVal.bool false)])))
      (JSVal.obj
        [("data_stores_path", JSVal.str "/p"),
         ("use_workspace_imagery_cache", JSVal.bool false)]) :=
  claim8_config_round_trip (JSVal.str "/d") (JSVal.bool true)
    (JSVal.str "/p") (JSVal.bool false) _ _ (Or.inl rfl) (Or.inl rfl)

/-- C6: for every running task the activity area follows the claimed
rule: a percentage bar valued `worked/total` exactly when the status is
IN_PROGRESS and a progress record exists with nonzero `worked` and
positive `total`; an unbounded indicator (no percentage) in every other
running case, in particular whenever the progress `total` is
non-positive. -/
theorem claim6_running_task_activity (t : TaskState)
    (hrun : TaskComponent.isRunning t = true) :
    TaskComponent.renderActivity t = TaskComponent.claimedRunningActivity t := by
  obtain ⟨st, pr, f⟩ := t
  cases pr with
  | none =>
    cases st <;>
      simp_all [TaskComponent.renderActivity, TaskComponent.isRunning,
        TaskComponent.isMakingProgress, TaskComponent.claimedRunningActivity]
  | some pr =>
    obtain ⟨w, tot, msg⟩ := pr
    by_cases hw : w = 0 <;> by_cases ht : tot > 0 <;> cases st <;>
      simp_all [TaskComponent.renderActivity, TaskComponent.isRunning,
        TaskComponent.isMakingProgress, TaskComponent.claimedRunningActivity]

/-- C6 witness: the activity rule at a concrete IN_PROGRESS task with
progress worked 3 of total 10. -/
theorem claim6_running_task_activity_witness :
    TaskComponent.isRunning
      ⟨JobStatusEnum.IN_PROGRESS, some ⟨3, 10, none⟩, none⟩ = true
    ∧ TaskComponent.renderActivity
        ⟨JobStatusEnum.IN_PROGRESS, some ⟨3, 10, none⟩, none⟩
      = TaskComponent.claimedRunningActivity
          ⟨JobStatusEnum.IN_PROGRESS, some ⟨3, 10, none⟩, none⟩ :=
  ⟨rfl, claim6_running_task_activity
    ⟨JobStatusEnum.IN_PROGRESS, some ⟨3, 10, none⟩, none⟩ rfl⟩

/-- C10: the rendered task row offers the Cancel control exactly when
the task is IN_PROGRESS with a progress record whose worked counter is
nonzero and whose total is positive; any other task — including a
running one whose progress has non-positive total or zero worked —
cannot be cancelled from the task list. -/
theorem claim10_cancel_iff_determinate_progress (t : TaskState) :
    TaskComponent.offersCancel t = TaskComponent.claimedCancelCondition t := by
  obtain ⟨st, pr, f⟩ := t
  cases pr with
  | none =>
    cases st <;>
      simp_all [TaskComponent.offersCancel, TaskComponent.renderActivity,
        TaskComponent.isRunning, TaskComponent.isMakingProgress,
        TaskComponent.claimedCancelCondition]
  | some pr =>
    obtain ⟨w, tot, msg⟩ := pr
    by_cases hw : w = 0 <;> by_cases ht : tot > 0 <;> cases st <;>
      simp [TaskComponent.offersCancel, TaskComponent.renderActivity,
        TaskComponent.isRunning, TaskComponent.isMakingProgress,
        TaskComponent.claimedCancelCondition, hw, ht, bne_iff_ne]

/-- C7 counterexample: a component instance whose `externalObjectStore`
property is absent does not operate on an injected store: its store
getter resolves to the class-static default cache, from which entries
are read — here the default cache's entry for "globe-1". -/
theorem claim7_counterexample :
    @externalObjectStoreOf Nat none [("globe-1", ⟨7, none, 3⟩)]
      = [("globe-1", ⟨7, none, 3⟩)]
    ∧ storeGet (@externalObjectStoreOf Nat none
        [("globe-1", ⟨7, none, 3⟩)]) "globe-1" = some ⟨7, none, 3⟩ :=
  ⟨rfl, rfl⟩

/-- C7 (amended): every store access of a lifecycle-bridge component
goes through the `externalObjectStore` getter, which yields the injected
store whenever the `externalObjectStore` property is provided, and the
class-static `DEFAULT_EXTERNAL_OBJECT_CACHE` — a shared hidden store —
whenever it is absent. -/
theorem claim7_store_getter {ES : Type} (s defaultCache : XStore ES) :
    externalObjectStoreOf (some s) defaultCache = s
    ∧ externalObjectStoreOf none defaultCache = defaultCache :=
  ⟨rfl, rfl⟩

/-- Lookup after assignment: the assigned key maps to the new reference,
every other key is untouched. -/
theorem storeGet_storeSet {ES : Type} (st : XStore ES) (i j : String)
    (r : XRef ES) :
    storeGet (storeSet st i r) j = if i = j then some r else storeGet st j := by
  induction st with
  | nil => simp [storeSet, storeGet]
  | cons kv rest ih =>
    obtain ⟨k, v⟩ := kv
    by_cases hki : k = i
    · subst hki
      by_cases hkj : k = j <;> simp [storeSet, storeGet, hkj]
    · by_cases hkj : k = j
      · subst hkj
        have hik : ¬ i = k := fun h => hki h.symm
        simp [storeSet, storeGet, hki, hik]
      · simp [storeSet, storeGet, hki, hkj, ih]

/-- Deletion removes the binding for the deleted key. -/
theorem storeGet_storeDel {ES : Type} (st : XStore ES) (i : String) :
    storeGet (storeDel st i) i = none := by
  induction st with
  | nil => simp [storeDel, storeGet]
  | cons kv rest ih =>
    obtain ⟨k, v⟩ := kv
    by_cases hki : k = i
    · simpa [storeDel, hki] using ih
    · simpa [storeDel, storeGet, hki] using ih

/-- Assignment preserves membership of every identifier. -/
theorem hasId_storeSet {ES : Type} (st : XStore ES) (i j : String)
    (r : XRef ES) (h : hasId st j = true) :
    hasId (storeSet st i r) j = true := by
  unfold hasId at h ⊢
  rw [storeGet_storeSet]
  by_cases hij : i = j
  · simp [hij]
  · simpa [hij] using h

/-- Running an appended operation list is running the two parts in
sequence. -/
theorem runOps_append {ES : Type} (cid : String) (l1 l2 : List (XOp ES))
    (s : XState ES) :
    runOps cid (l1 ++ l2) s = (runOps cid l1 s).bind (runOps cid l2) := by
  induction l1 generalizing s with
  | nil => rfl
  | cons op l1 ih =>
    show runOps cid (op :: (l1 ++ l2)) s = _
    cases h : xStep cid s op with
    | error e => simp [runOps, h, Except.bind]
    | ok t => simp [runOps, h, Except.bind, ih]

/-- `updChain` contains no construction events. -/
theorem updChain_no_newObj {ES : Type} (o : Nat) (st : ES) (ps : List ES) :
    List.countP (fun e => isNewObjEv e) (updChain o st ps) = 0 := by
  induction ps generalizing st with
  | nil => rfl
  | cons p ps ih =>
    rw [updChain, List.countP_cons, ih p]
    rfl

/-- Along `updChain` every update call's previous state is the state
saved by the preceding call. -/
theorem chainOK_updChain {ES : Type} [DecidableEq ES] (o : Nat) (st : ES)
    (ps : List ES) :
    chainOK (some st) (updChain o st ps) = true := by
  induction ps generalizing st with
  | nil => rfl
  | cons p ps ih => simpa [updChain, chainOK] using ih p

/-- Running a list of property updates against a singleton store whose
entry carries a saved state applies them in order: the entry ends with
the last state, nothing else changes, and the logged update calls chain
the states together. -/
theorem runOps_updates {ES : Type} (cid : String) (hc : cid ≠ "")
    (ps : List ES) (o c : Nat) (st : ES) (ch : List Nat) (b : Bool)
    (n : Nat) (ev : List (XEvent ES)) :
    runOps cid (ps.map XOp.update) ⟨[(cid, ⟨o, some st, c⟩)], ch, b, n, ev⟩
      = .ok ⟨[(cid, ⟨o, some (lastD st ps), c⟩)], ch, b, n,
             ev ++ updChain o st ps⟩ := by
  induction ps generalizing st ev with
  | nil => simp [runOps, lastD, updChain]
  | cons p ps ih =>
    have hstep : xStep cid ⟨[(cid, ⟨o, some st, c⟩)], ch, b, n, ev⟩
        (XOp.update p)
        = .ok ⟨[(cid, ⟨o, some p, c⟩)], ch, b, n,
               ev ++ [.update o (some st) p]⟩ := by
      simp [xStep, componentWillUpdate, hc, hasId, storeGet,
        updateExternalComponentAndSaveProps, storeSet]
    simp only [List.map, runOps, hstep, Except.bind, ih, lastD, updChain,
      List.append_assoc, List.cons_append, List.nil_append]

/-- A first mount against an empty store constructs container and object
0, registers the entry, and issues the initial update with previous
state `none`. -/
theorem xStep_mount_init {ES : Type} (cid : String) (p0 : ES) :
    xStep cid (xInit ES) (XOp.mount p0)
      = .ok ⟨[(cid, ⟨0, some p0, 0⟩)], [0], true, 1,
             [.newObj cid 0, .mounted 0, .update 0 none p0]⟩ := by
  simp [xStep, remountExternalObject, hasId, storeGet, xInit,
    mountNewExternalObject, updateExternalComponentAndSaveProps, storeSet]

/-- Unmounting an attached component whose entry's container is the sole
child detaches the container and notifies the client; the store is
untouched. -/
theorem xStep_unmount_attached {ES : Type} (cid : String) (o c : Nat)
    (stO : Option ES) (n : Nat) (ev : List (XEvent ES)) :
    xStep cid ⟨[(cid, ⟨o, stO, c⟩)], [c], true, n, ev⟩ XOp.unmount
      = .ok ⟨[(cid, ⟨o, stO, c⟩)], [], false, n, ev ++ [.unmounted o]⟩ := by
  simp [xStep, unmountExternalObject, storeGet, List.contains]

/-- Remounting a detached component with a registered entry re-appends
the stored container and issues an update whose previous state is the
entry's saved state. -/
theorem xStep_remount_existing {ES : Type} (cid : String) (q : ES)
    (o c : Nat) (st : ES) (n : Nat) (ev : List (XEvent ES)) :
    xStep cid ⟨[(cid, ⟨o, some st, c⟩)], [], false, n, ev⟩ (XOp.mount q)
      = .ok ⟨[(cid, ⟨o, some q, c⟩)], [c], true, n,
             ev ++ [.mounted o, .update o (some st) q]⟩ := by
  simp [xStep, remountExternalObject, hasId, storeGet,
    mountExistingExternalObject, updateExternalComponentAndSaveProps,
    storeSet, List.contains]

/-- C1: for a mount, any sequence of property updates, an unmount and a
remount against the same store and identifier, `newExternalObject` is
invoked exactly once (on the first mount only); the unmount removes the
container from the parent element but leaves the store entry's object,
state and container unchanged; and the first `updateExternalObject` call
after the remount receives as previous state exactly the last state
recorded before the unmount. -/
theorem claim1_remount_constructs_once {ES : Type} (cid : String)
    (p0 q : ES) (ps : List ES) (hc : cid ≠ "") :
    runOps cid (XOp.mount p0 :: ps.map XOp.update) (xInit ES)
      = .ok ⟨[(cid, ⟨0, some (lastD p0 ps), 0⟩)], [0], true, 1,
             [.newObj cid 0, .mounted 0, .update 0 none p0]
               ++ updChain 0 p0 ps⟩
    ∧ runOps cid ((XOp.mount p0 :: ps.map XOp.update) ++ [XOp.unmount])
        (xInit ES)
      = .ok ⟨[(cid, ⟨0, some (lastD p0 ps), 0⟩)], [], false, 1,
             ([.newObj cid 0, .mounted 0, .update 0 none p0]
               ++ updChain 0 p0 ps) ++ [.unmounted 0]⟩
    ∧ runOps cid
        ((XOp.mount p0 :: ps.map XOp.update) ++ [XOp.unmount, XOp.mount q])
        (xInit ES)
      = .ok ⟨[(cid, ⟨0, some q, 0⟩)], [0], true, 1,
             (([.newObj cid 0, .mounted 0, .update 0 none p0]
               ++ updChain 0 p0 ps) ++ [.unmounted 0])
               ++ [.mounted 0, .update 0 (some (lastD p0 ps)) q]⟩
    ∧ List.countP (fun e => isNewObjEv e)
        ((([.newObj cid 0, .mounted 0, .update 0 none p0]
           ++ updChain 0 p0 ps) ++ [.unmounted 0])
           ++ [.mounted 0, .update 0 (some (lastD p0 ps)) q]) = 1 := by
  have hA : runOps cid (XOp.mount p0 :: ps.map XOp.update) (xInit ES)
      = .ok ⟨[(cid, ⟨0, some (lastD p0 ps), 0⟩)], [0], true, 1,
             [.newObj cid 0, .mounted 0, .update 0 none p0]
               ++ updChain 0 p0 ps⟩ := by
    show (xStep cid (xInit ES) (XOp.mount p0)).bind
        (runOps cid (ps.map XOp.update)) = _
    rw [xStep_mount_init]
    exact runOps_updates cid hc ps 0 0 p0 [0] true 1
      [.newObj cid 0, .mounted 0, .update 0 none p0]
  have hU : runOps cid ((XOp.mount p0 :: ps.map XOp.update) ++ [XOp.unmount])
      (xInit ES)
      = .ok ⟨[(cid, ⟨0, some (lastD p0 ps), 0⟩)], [], false, 1,
             ([.newObj cid 0, .mounted 0, .update 0 none p0]
               ++ updChain 0 p0 ps) ++ [.unmounted 0]⟩ := by
    rw [runOps_append, hA]
    show (xStep cid _ XOp.unmount).bind (runOps cid []) = _
    rw [xStep_unmount_attached]
    rfl
  refine ⟨hA, hU, ?_, ?_⟩
  · have hsplit : (XOp.mount p0 :: ps.map XOp.update)
        ++ [XOp.unmount, XOp.mount q]
        = ((XOp.mount p0 :: ps.map XOp.update) ++ [XOp.unmount])
            ++ [XOp.mount q] := by
      simp
    rw [hsplit, runOps_append, hU]
    show (xStep cid _ (XOp.mount q)).bind (runOps cid []) = _
    rw [xStep_remount_existing]
    rfl
  · rw [List.countP_append, List.countP_append, List.countP_append,
      updChain_no_newObj]
    rfl

/-- C1 witness: the lifecycle facts at identifier "world-view", initial
props 10, updates 11 then 12, and remount props 13. -/
theorem claim1_remount_constructs_once_witness :
    ("world-view" : String) ≠ ""
    ∧ (runOps "world-view"
        (XOp.mount 10 :: [11, 12].map XOp.update) (xInit Nat)
        = .ok ⟨[("world-view", ⟨0, some (lastD 10 [11, 12]), 0⟩)], [0], true, 1,
               [.newObj "world-view" 0, .mounted 0, .update 0 none 10]
                 ++ updChain 0 10 [11, 12]⟩
      ∧ runOps "world-view"
          ((XOp.mount 10 :: [11, 12].map XOp.update) ++ [XOp.unmount])
          (xInit Nat)
        = .ok ⟨[("world-view", ⟨0, some (lastD 10 [11, 12]), 0⟩)], [], false, 1,
               ([.newObj "world-view" 0, .mounted 0, .update 0 none 10]
                 ++ updChain 0 10 [11, 12]) ++ [.unmounted 0]⟩
      ∧ runOps "world-view"
          ((XOp.mount 10 :: [11, 12].map XOp.update)
            ++ [XOp.unmount, XOp.mount 13])
          (xInit Nat)
        = .ok ⟨[("world-view", ⟨0, some 13, 0⟩)], [0], true, 1,
               (([.newObj "world-view" 0, .mounted 0, .update 0 none 10]
                 ++ updChain 0 10 [11, 12]) ++ [.unmounted 0])
                 ++ [.mounted 0, .update 0 (some (lastD 10 [11, 12])) 13]⟩
      ∧ List.countP (fun e => isNewObjEv e)
          ((([.newObj "world-view" 0, .mounted 0, .update 0 none 10]
             ++ updChain 0 10 [11, 12]) ++ [.unmounted 0])
             ++ [.mounted 0, .update 0 (some (lastD 10 [11, 12])) 13]) = 1) :=
  ⟨by decide,
   claim1_remount_constructs_once "world-view" 10 13 [11, 12] (by decide)⟩

/-- C2: on a mount with no store entry the external object is
constructed and registered before the first `updateExternalObject` call
(construction is logged at index 0, the first update at index 2); that
first call receives `none` (undefined) as previous state; every
subsequent update call's previous state equals exactly the next state
saved by the preceding update call; and a property update against a
state with no store entry (and no parent) is skipped entirely. -/
theorem claim2_first_update_gets_undefined {ES : Type} [DecidableEq ES]
    (cid : String) (p0 : ES) (ps : List ES) (hc : cid ≠ "") :
    runOps cid (XOp.mount p0 :: ps.map XOp.update) (xInit ES)
      = .ok ⟨[(cid, ⟨0, some (lastD p0 ps), 0⟩)], [0], true, 1,
             [.newObj cid 0, .mounted 0, .update 0 none p0]
               ++ updChain 0 p0 ps⟩
    ∧ chainOK none ([.newObj cid 0, .mounted 0, .update 0 none p0]
        ++ updChain 0 p0 ps) = true
    ∧ firstIdx (fun e => isNewObjEv e)
        ([.newObj cid 0, .mounted 0, .update 0 none p0]
          ++ updChain 0 p0 ps) = 0
    ∧ firstIdx (fun e => isUpdateEv e)
        ([.newObj cid 0, .mounted 0, .update 0 none p0]
          ++ updChain 0 p0 ps) = 2
    ∧ componentWillUpdate cid p0 (xInit ES) = .ok (xInit ES) := by
  refine ⟨?_, ?_, rfl, rfl, ?_⟩
  · show (xStep cid (xInit ES) (XOp.mount p0)).bind
        (runOps cid (ps.map XOp.update)) = _
    rw [xStep_mount_init]
    exact runOps_updates cid hc ps 0 0 p0 [0] true 1
      [.newObj cid 0, .mounted 0, .update 0 none p0]
  · simpa [chainOK] using chainOK_updChain 0 p0 ps
  · simp [componentWillUpdate, hc, hasId, storeGet, xInit]

/-- C2 witness: the mount-then-update facts at identifier "globe",
initial props 4 and one further update 9. -/
theorem claim2_first_update_gets_undefined_witness :
    ("globe" : String) ≠ ""
    ∧ (runOps "globe" (XOp.mount 4 :: [9].map XOp.update) (xInit Nat)
        = .ok ⟨[("globe", ⟨0, some (lastD 4 [9]), 0⟩)], [0], true, 1,
               [.newObj "globe" 0, .mounted 0, .update 0 none 4]
                 ++ updChain 0 4 [9]⟩
      ∧ chainOK none ([.newObj "globe" 0, .mounted 0, .update 0 none 4]
          ++ updChain 0 4 [9]) = true
      ∧ firstIdx (fun e => isNewObjEv e)
          ([.newObj "globe" 0, .mounted 0, .update 0 none 4]
            ++ updChain 0 4 [9]) = 0
      ∧ firstIdx (fun e => isUpdateEv e)
          ([.newObj "globe" 0, .mounted 0, .update 0 none 4]
            ++ updChain 0 4 [9]) = 2
      ∧ componentWillUpdate "globe" 4 (xInit Nat) = .ok (xInit Nat)) :=
  ⟨by decide, claim2_first_update_gets_undefined "globe" 4 [9] (by decide)⟩

/-- C5: when no store entry exists for the component's identifier, both
the update operation and the unmount operation fail the `assert.ok`
check (modelled as `Except.error`) instead of silently returning; when
an entry exists, the assertion branch is unreachable and both operations
complete normally. -/
theorem claim5_missing_entry_fails_fast {ES : Type} (cid : String)
    (p : ES) (s : XState ES) :
    (storeGet s.store cid = none →
      updateExternalComponentAndSaveProps cid p s = .error ()
      ∧ unmountExternalObject cid s = .error ())
    ∧ ((storeGet s.store cid).isSome = true →
      isOkE (updateExternalComponentAndSaveProps cid p s) = true
      ∧ isOkE (unmountExternalObject cid s) = true) := by
  constructor
  · intro h
    constructor
    · rw [updateExternalComponentAndSaveProps, h]
    · rw [unmountExternalObject, h]
  · intro h
    cases hg : storeGet s.store cid with
    | none => rw [hg] at h; cases h
    | some ref =>
      constructor
      · rw [updateExternalComponentAndSaveProps, hg]; rfl
      · rw [unmountExternalObject, hg]; rfl

/-- C5 witness: the fail-fast facts at a state with no entry for "map"
and at a state holding an entry for "map". -/
theorem claim5_missing_entry_fails_fast_witness :
    (updateExternalComponentAndSaveProps "map" (5 : Nat) (xInit Nat)
        = .error ()
      ∧ unmountExternalObject "map" (xInit Nat) = .error ())
    ∧ (isOkE (updateExternalComponentAndSaveProps "map" (5 : Nat)
        ⟨[("map", ⟨0, some 4, 0⟩)], [0], true, 1, []⟩) = true
      ∧ isOkE (unmountExternalObject "map"
          ⟨[("map", ⟨0, some 4, 0⟩)], [0], true, 1, []⟩) = true) :=
  ⟨(claim5_missing_entry_fails_fast "map" 5 (xInit Nat)).1 rfl,
   (claim5_missing_entry_fails_fast "map" 5
      ⟨[("map", ⟨0, some 4, 0⟩)], [0], true, 1, []⟩).2 rfl⟩

/-- A successful update-and-save preserves store membership of every
identifier. -/
theorem updateSave_preserves_mem {ES : Type} (cid : String) (p : ES)
    (s t : XState ES) (i : String)
    (h : updateExternalComponentAndSaveProps cid p s = .ok t)
    (hm : hasId s.store i = true) : hasId t.store i = true := by
  unfold updateExternalComponentAndSaveProps at h
  cases hg : storeGet s.store cid with
  | none => rw [hg] at h; cases h
  | some ref =>
    rw [hg] at h
    cases h
    exact hasId_storeSet _ _ _ _ hm

/-- A successful fresh mount preserves store membership of every
identifier. -/
theorem mountNew_preserves_mem {ES : Type} (cid : String) (p : ES)
    (s t : XState ES) (i : String)
    (h : mountNewExternalObject cid p s = .ok t)
    (hm : hasId s.store i = true) : hasId t.store i = true := by
  unfold mountNewExternalObject at h
  exact updateSave_preserves_mem cid p _ t i h (hasId_storeSet _ _ _ _ hm)

/-- A successful remount of an existing entry preserves store membership
of every identifier. -/
theorem mountExisting_preserves_mem {ES : Type} (cid : String) (p : ES)
    (s t : XState ES) (i : String)
    (h : mountExistingExternalObject cid p s = .ok t)
    (hm : hasId s.store i = true) : hasId t.store i = true := by
  unfold mountExistingExternalObject at h
  cases hg : storeGet s.store cid with
  | none => rw [hg] at h; cases h
  | some ref =>
    rw [hg] at h
    exact updateSave_preserves_mem cid p _ t i h hm

/-- A successful unmount leaves the store unchanged, hence preserves
membership. -/
theorem unmount_preserves_mem {ES : Type} (cid : String)
    (s t : XState ES) (i : String)
    (h : unmountExternalObject cid s = .ok t)
    (hm : hasId s.store i = true) : hasId t.store i = true := by
  unfold unmountExternalObject at h
  cases hg : storeGet s.store cid with
  | none => rw [hg] at h; cases h
  | some ref =>
    rw [hg] at h
    cases h
    exact hm

/-- A successful mount through `remountExternalObject` with a parent
element preserves store membership of every identifier. -/
theorem remount_preserves_mem {ES : Type} (cid : String) (p : ES)
    (s t : XState ES) (i : String)
    (h : remountExternalObject cid p true s = .ok t)
    (hm : hasId s.store i = true) : hasId t.store i = true := by
  unfold remountExternalObject at h
  by_cases hc : hasId s.store cid = true
  · rw [if_pos rfl, if_pos hc] at h
    exact mountExisting_preserves_mem cid p s t i h hm
  · rw [if_pos rfl, if_neg hc] at h
    exact mountNew_preserves_mem cid p s t i h hm

/-- C4: store membership is preserved by every lifecycle operation of
the bridge except the explicit disposal: a mount, a property update and
an unmount that complete normally never remove a store entry, while
`forceRegeneration` — the bridge's only removal path — deletes the entry
(removing it for good when the component is detached). -/
theorem claim4_disposal_only_removal {ES : Type} (cid : String) (p : ES)
    (s s' : XState ES) (i : String) (hmem : hasId s.store i = true) :
    (xStep cid s (XOp.mount p) = .ok s' → hasId s'.store i = true)
    ∧ (xStep cid s (XOp.update p) = .ok s' → hasId s'.store i = true)
    ∧ (xStep cid s XOp.unmount = .ok s' → hasId s'.store i = true)
    ∧ (s.attached = false → (storeGet s.store cid).isSome = true →
        forceRegeneration cid p s
          = .ok { s with store := storeDel s.store cid }
        ∧ hasId (storeDel s.store cid) cid = false) := by
  refine ⟨?_, ?_, ?_, ?_⟩
  · intro h
    exact remount_preserves_mem cid p s s' i h hmem
  · intro h
    simp only [xStep, componentWillUpdate] at h
    by_cases he : cid = ""
    · rw [if_pos he] at h; cases h
    · rw [if_neg he] at h
      by_cases hc : hasId s.store cid = true
      · rw [if_pos hc] at h
        exact updateSave_preserves_mem cid p s s' i h hmem
      · rw [if_neg hc] at h
        by_cases ha : s.attached = true
        · rw [if_pos ha] at h
          exact remount_preserves_mem cid p s s' i h hmem
        · rw [if_neg ha] at h
          cases h
          exact hmem
  · intro h
    simp only [xStep] at h
    by_cases ha : s.attached = true
    · rw [if_pos ha] at h
      exact unmount_preserves_mem cid s s' i h hmem
    · rw [if_neg ha] at h
      cases h
      exact hmem
  · intro hatt hsome
    cases hg : storeGet s.store cid with
    | none => rw [hg] at hsome; cases hsome
    | some ref =>
      constructor
      · simp [forceRegeneration, hg, remountExternalObject, hatt]
      · unfold hasId
        rw [storeGet_storeDel]
        rfl

/-- C4 witness: membership preservation at a concrete attached state
holding the entry "view" (and the disposal facts at the corresponding
detached state). -/
theorem claim4_disposal_only_removal_witness :
    @hasId Nat [("view", ⟨0, some 1, 0⟩)] "view" = true
    ∧ ((xStep "view" ⟨[("view", ⟨0, some 1, 0⟩)], [0], true, 1, []⟩
          (XOp.mount (2 : Nat))
          = .ok ⟨[("view", ⟨0, some 2, 0⟩)], [0], true, 1,
                 [.mounted 0, .update 0 (some 1) 2]⟩
        → @hasId Nat [("view", ⟨0, some 2, 0⟩)] "view" = true)
      ∧ (xStep "view" ⟨[("view", ⟨0, some 1, 0⟩)], [0], true, 1, []⟩
          (XOp.update (2 : Nat))
          = .ok ⟨[("view", ⟨0, some 2, 0⟩)], [0], true, 1,
                 [.mounted 0, .update 0 (some 1) 2]⟩
        → @hasId Nat [("view", ⟨0, some 2, 0⟩)] "view" = true)
      ∧ (xStep "view" ⟨[("view", ⟨0, some 1, 0⟩)], [0], true, 1, []⟩
          XOp.unmount
          = .ok ⟨[("view", ⟨0, some 2, 0⟩)], [0], true, 1,
                 [.mounted 0, .update 0 (some 1) 2]⟩
        → @hasId Nat [("view", ⟨0, some 2, 0⟩)] "view" = true)
      ∧ (@XState.attached Nat
            ⟨[("view", ⟨0, some 1, 0⟩)], [0], true, 1, []⟩ = false →
         (@storeGet Nat [("view", ⟨0, some 1, 0⟩)] "view").isSome = true →
          forceRegeneration "view" (2 : Nat)
              ⟨[("view", ⟨0, some 1, 0⟩)], [0], true, 1, []⟩
            = .ok ⟨@storeDel Nat [("view", ⟨0, some 1, 0⟩)] "view",
                   [0], true, 1, []⟩
          ∧ hasId (@storeDel Nat [("view", ⟨0, some 1, 0⟩)] "view")
              "view" = false)) :=
  ⟨by decide,
   claim4_disposal_only_removal "view" 2
     ⟨[("view", ⟨0, some 1, 0⟩)], [0], true, 1, []⟩
     ⟨[("view", ⟨0, some 2, 0⟩)], [0], true, 1,
      [.mounted 0, .update 0 (some 1) 2]⟩
     "view" (by decide)⟩

end Cate
